import Mathlib

/-!
Verification of the session/authentication flow of the doctor_agentic_app
frontend, shallowly embedded from the JavaScript source:

* `src/frontend/src/utils/axiosInstance.js` — the axios instance with its
  request interceptor (attach `Authorization: Bearer <token>` from
  localStorage) and its response interceptor (on a 401 that has not been
  retried, refresh the token via a bare `axios.post` to `/auth/refresh`,
  overwrite the stored access token and re-issue the original request once;
  on refresh failure, `localStorage.clear()` and redirect to `/login`).
* `src/frontend/src/components/ProtectedRoute.jsx` (first variant, the one
  the claims cite) — URL token extraction, history replacement, `/auth/me`
  validation, and the failure handler removing `access_token` and `role`.
* `src/unnamed/part_002` — the Redux auth slice whose `logout` reducer
  removes only `access_token` from localStorage.
* `src/unnamed/part_009` and `src/unnamed/part_021` — the `handleLogout`
  handlers.

The browser's localStorage is modelled by `Store` (the three keys the flow
uses), the backend by an oracle `Env`, and observable side effects
(HTTP calls, refresh calls, navigations) by a trace of `Event`s.
-/

/-- Local storage restricted to the three keys the session flow touches:
`access_token`, `refresh_token`, `role`. `none` is an absent key. -/
structure Store where
  access_token : Option String
  refresh_token : Option String
  role : Option String
deriving Repr, DecidableEq

/-- Result of `localStorage.clear()` in `axiosInstance.js` line 44:
every key is removed. -/
def Store.clearAll : Store := ⟨none, none, none⟩

/-- Backend oracle for a single originating request. `api a auth` is the
HTTP status the backend returns to attempt `a` (0 = first issue, 1 = the
one retry) of the request when it carries Authorization header `auth`.
`refresh rt` models `POST /auth/refresh` with body refresh token `rt`:
`some newTok` is a 2xx response carrying `access_token = newTok`, `none` is
any failure of the refresh call (e.g. a 401). -/
structure Env where
  api : Nat → Option String → Nat
  refresh : Option String → Option String

/-- Observable side effects of the flow: a request issued to the API (with
its attempt index and Authorization header), a refresh call carrying the
refresh token read from the store, and a browser navigation. -/
inductive Event where
  | apiCall (attempt : Nat) (auth : Option String)
  | refreshCall (refreshTok : Option String)
  | navigate (path : String)
deriving Repr, DecidableEq

/-- Outcome delivered to the caller of the axios instance: a fulfilled
2xx response, a rejected HTTP error with its status, or the rejection of
the refresh error object (`Promise.reject(refreshError)`, line 46). -/
inductive Outcome where
  | success (status : Nat)
  | httpError (status : Nat)
  | refreshError
deriving Repr, DecidableEq

/-- Authorization header value built by the request interceptor
(`axiosInstance.js` line 16). -/
def bearer (t : String) : String := "Bearer " ++ t

/-- Number of refresh attempts recorded in a trace. -/
def countRefresh (evs : List Event) : Nat :=
  evs.countP fun e => match e with | .refreshCall _ => true | _ => false

/-- Number of API requests recorded in a trace. -/
def countApi (evs : List Event) : Nat :=
  evs.countP fun e => match e with | .apiCall _ _ => true | _ => false

/-- One pass of a request whose `_retry` flag is already `true`
(`axiosInstance.js`: the request re-issued at line 42 re-enters the
response interceptor, and line 28's `!originalRequest._retry` guard fails,
so line 49 propagates any error unchanged; the request interceptor still
reads the stored token). -/
def runAxiosRetried (env : Env) (st : Store) (attempt : Nat) :
    Store × List Event × Outcome :=
  let auth := st.access_token.map bearer
  let status := env.api attempt auth
  if 200 ≤ status ∧ status < 300 then
    (st, [.apiCall attempt auth], .success status)
  else
    (st, [.apiCall attempt auth], .httpError status)

/-- A fresh request through the axios instance (`_retry` unset),
`axiosInstance.js` lines 13-19 and 23-51: attach the stored token; on a
non-2xx status other than 401 reject; on a first 401, set `_retry`, call
`POST /auth/refresh` with the stored refresh token on a bare axios client
(line 33, no interceptor), on refresh success store the new access token
(line 38) and re-issue the original request once (lines 41-42), on refresh
failure clear the whole store, navigate to `/login` and reject with the
refresh error (lines 44-46). The re-issued request fails through
`runAxiosRetried` because its `_retry` flag is set. -/
def runAxiosFresh (env : Env) (st : Store) : Store × List Event × Outcome :=
  let auth := st.access_token.map bearer
  let status := env.api 0 auth
  if 200 ≤ status ∧ status < 300 then
    (st, [.apiCall 0 auth], .success status)
  else if status = 401 then
    match env.refresh st.refresh_token with
    | some newTok =>
        let st1 : Store := { st with access_token := some newTok }
        let r := runAxiosRetried env st1 1
        (r.1, .apiCall 0 auth :: .refreshCall st.refresh_token :: r.2.1, r.2.2)
    | none =>
        (Store.clearAll,
         [.apiCall 0 auth, .refreshCall st.refresh_token, .navigate "/login"],
         .refreshError)
  else
    (st, [.apiCall 0 auth], .httpError status)

/-- The browser URL: the pathname and the query parameters. -/
structure Url where
  pathname : String
  query : List (String × String)
deriving Repr, DecidableEq

/-- Reading one query parameter, as `new URLSearchParams(location.search).get(k)`. -/
def Url.getParam (u : Url) (k : String) : Option String :=
  (u.query.find? fun p => p.1 == k).map fun p => p.2

/-- The Token Store write pattern of `ProtectedRoute.jsx` lines 20-24:
`localStorage.setItem("access_token", tok)` always, and
`localStorage.setItem("role", r)` only when a role value is provided.
No other key is touched. -/
def storeSetFromUrl (st : Store) (tok : String) (roleVal : Option String) : Store :=
  match roleVal with
  | some r => { st with access_token := some tok, role := some r }
  | none => { st with access_token := some tok }

/-- URL token extraction, `ProtectedRoute.jsx` lines 13-28: if the query
has an `access_token` parameter, store it (and the `role` parameter when
present) and rewrite the visible URL to the bare pathname via
`window.history.replaceState({}, "", location.pathname)` — no navigation,
the entire query string is dropped. Otherwise nothing changes. -/
def extractUrlToken (st : Store) (u : Url) : Store × Url :=
  match u.getParam "access_token" with
  | some tok => (storeSetFromUrl st tok (u.getParam "role"), ⟨u.pathname, []⟩)
  | none => (st, u)

/-- Terminal states of the session bootstrap. -/
inductive BootState where
  | authenticated
  | unauthenticated
deriving Repr, DecidableEq

/-- The Session Bootstrap run by `ProtectedRoute.jsx`'s effect
(lines 13-49): extract a URL token, then read the stored token; with no
stored token navigate to `/login` immediately (lines 32-36, no network
call); otherwise validate via `API.get("/auth/me")` through the axios
instance; on success render the children (authenticated); on any failure
remove `access_token` and `role` from the store (lines 45-46, and only
those two keys) and navigate to `/login`. Returns the final store, the
visible URL, the event trace and the terminal state. -/
def bootstrap (env : Env) (st : Store) (u : Url) :
    Store × Url × List Event × BootState :=
  let p := extractUrlToken st u
  match p.1.access_token with
  | none => (p.1, p.2, [.navigate "/login"], .unauthenticated)
  | some _ =>
      let r := runAxiosFresh env p.1
      match r.2.2 with
      | .success _ => (r.1, p.2, r.2.1, .authenticated)
      | _ =>
          ({ r.1 with access_token := none, role := none }, p.2,
           r.2.1 ++ [.navigate "/login"], .unauthenticated)

/-- The `logout` reducer of the Redux auth slice (`src/unnamed/part_002`
lines 29-33): sets `isAuthenticated` to false and removes only the
`access_token` key from localStorage; `role` and `refresh_token` are left
as they were. -/
def authSliceLogout (st : Store) : Store := { st with access_token := none }

/-- The `handleLogout` of the Redux layout in `src/unnamed/part_009`
(lines 111-120): `POST /auth/logout` through the axios instance inside a
try/catch whose catch only logs; then, regardless of the backend outcome,
remove `access_token`, dispatch the auth-slice `logout`, and navigate to
`/login`. -/
def handleLogoutPart009v1 (env : Env) (st : Store) : Store × List Event :=
  let r := runAxiosFresh env st
  (authSliceLogout { r.1 with access_token := none },
   r.2.1 ++ [.navigate "/login"])

/-- The second `handleLogout` in `src/unnamed/part_009` (lines 303-312):
`POST /auth/logout` through the axios instance, errors ignored; then,
regardless of the backend outcome, remove `access_token` and `role` and
navigate to `/login`. -/
def handleLogoutPart009v2 (env : Env) (st : Store) : Store × List Event :=
  let r := runAxiosFresh env st
  ({ r.1 with access_token := none, role := none },
   r.2.1 ++ [.navigate "/login"])

/-- The `handleLogout` of `src/unnamed/part_021` (lines 276-295): only if
a token is stored, `POST /auth/logout` on a bare axios client with an
explicit Bearer header; the removal of `access_token` and `role`, the user
reset and the navigation all sit inside the `try` after the awaited post,
so a failed backend call runs only `console.error` and changes nothing. -/
def handleLogoutPart021 (env : Env) (st : Store) : Store × List Event :=
  match st.access_token with
  | none => (st, [])
  | some tok =>
      let status := env.api 0 (some (bearer tok))
      if 200 ≤ status ∧ status < 300 then
        ({ st with access_token := none, role := none },
         [.apiCall 0 (some (bearer tok)), .navigate "/login?logged_out=true"])
      else
        (st, [.apiCall 0 (some (bearer tok))])

/-- Helper: a retried request records exactly one API call and no refresh
call, and its store is the one it was given. -/
theorem runAxiosRetried_shape (env : Env) (st : Store) (a : Nat) :
    (runAxiosRetried env st a).1 = st ∧
    (runAxiosRetried env st a).2.1 = [.apiCall a (st.access_token.map bearer)] := by
  simp only [runAxiosRetried]
  split <;> simp

/-- C1: on a first 401, exactly one refresh attempt is made (POST
/auth/refresh with the stored refresh token); when it succeeds, the stored
access token is overwritten with the new token and the original request is
re-issued exactly once carrying the new token in its Authorization
header. -/
theorem c1_first_401_single_refresh_and_retry
    (env : Env) (st : Store) (newTok : String)
    (h401 : env.api 0 (st.access_token.map bearer) = 401)
    (hrefresh : env.refresh st.refresh_token = some newTok) :
    (runAxiosFresh env st).1.access_token = some newTok ∧
    countRefresh (runAxiosFresh env st).2.1 = 1 ∧
    countApi (runAxiosFresh env st).2.1 = 2 ∧
    (runAxiosFresh env st).2.1 =
      [.apiCall 0 (st.access_token.map bearer),
       .refreshCall st.refresh_token,
       .apiCall 1 (some (bearer newTok))] := by
  have hshape := runAxiosRetried_shape env { st with access_token := some newTok } 1
  simp only [runAxiosFresh, h401, hrefresh, hshape.1, hshape.2]
  norm_num [countRefresh, countApi]

/-- C2: a refresh is attempted only on a first 401. When the first
response is not a 401 no refresh happens; when a 401 arrives on the
request re-issued after a successful refresh, no second refresh is
attempted and the 401 is propagated to the caller. -/
theorem c2_refresh_gating (env : Env) (st : Store) :
    (env.api 0 (st.access_token.map bearer) ≠ 401 →
       countRefresh (runAxiosFresh env st).2.1 = 0) ∧
    (∀ newTok, env.api 0 (st.access_token.map bearer) = 401 →
       env.refresh st.refresh_token = some newTok →
       env.api 1 (some (bearer newTok)) = 401 →
       countRefresh (runAxiosFresh env st).2.1 = 1 ∧
       (runAxiosFresh env st).2.2 = .httpError 401) := by
  constructor
  · intro hne
    simp only [runAxiosFresh]
    rw [if_neg hne]
    split <;> simp [countRefresh]
  · intro newTok h401 hrefresh h401b
    have hshape := runAxiosRetried_shape env { st with access_token := some newTok } 1
    simp only [runAxiosFresh, h401, hrefresh]
    constructor
    · simp only [hshape.2]
      norm_num [countRefresh]
    · simp only [runAxiosRetried, Option.map_some']
      rw [h401b]
      norm_num

/-- C3: when the refresh attempt itself fails, the whole store is cleared
(localStorage.clear), the browser is navigated to /login, and the refresh
error is propagated to the caller. -/
theorem c3_refresh_failure_hard_logout (env : Env) (st : Store)
    (h401 : env.api 0 (st.access_token.map bearer) = 401)
    (hfail : env.refresh st.refresh_token = none) :
    runAxiosFresh env st =
      (Store.clearAll,
       [.apiCall 0 (st.access_token.map bearer),
        .refreshCall st.refresh_token, .navigate "/login"],
       .refreshError) := by
  simp only [runAxiosFresh, h401, hfail]
  norm_num

/-- C10: the refresh request runs on a bare axios client outside the
response interceptor (modelled as a single oracle application, never
re-entering `runAxiosFresh`), so an originating request makes at most one
refresh attempt, a retried request makes none, and a failed refresh always
lands in the single clear-store-and-redirect branch, propagating the
refresh error. -/
theorem c10_refresh_not_intercepted_single_attempt (env : Env) (st : Store) :
    countRefresh (runAxiosFresh env st).2.1 ≤ 1 ∧
    (∀ st2 a, countRefresh (runAxiosRetried env st2 a).2.1 = 0) ∧
    (env.api 0 (st.access_token.map bearer) = 401 →
       env.refresh st.refresh_token = none →
       (runAxiosFresh env st).1 = Store.clearAll ∧
       (runAxiosFresh env st).2.2 = .refreshError ∧
       Event.navigate "/login" ∈ (runAxiosFresh env st).2.1) := by
  refine ⟨?_, ?_, ?_⟩
  · simp only [runAxiosFresh]
    split
    · norm_num [countRefresh]
    · split
      · cases hr : env.refresh st.refresh_token with
        | some newTok =>
            have hshape := runAxiosRetried_shape env { st with access_token := some newTok } 1
            simp only [hshape.2]
            norm_num [countRefresh]
        | none => norm_num [countRefresh]
      · norm_num [countRefresh]
  · intro st2 a
    have hshape := runAxiosRetried_shape env st2 a
    simp only [hshape.2]
    norm_num [countRefresh]
  · intro h401 hfail
    simp only [runAxiosFresh, h401, hfail]
    norm_num

/-- C9: the Token Store write pattern stores exactly the provided fields:
the access token is written, the role is written only when provided, and
the refresh token (and, when no role is provided, the previous role) keeps
its previous stored value. -/
theorem c9_store_set_frame (st : Store) (tok : String) (roleVal : Option String) :
    (storeSetFromUrl st tok roleVal).access_token = some tok ∧
    (storeSetFromUrl st tok roleVal).refresh_token = st.refresh_token ∧
    (storeSetFromUrl st tok roleVal).role =
      (match roleVal with | some r => some r | none => st.role) := by
  cases roleVal <;> simp [storeSetFromUrl]

/-- C5: with no access token in the URL and none in the store, the
bootstrap navigates straight to /login with no API call and no refresh
call. -/
theorem c5_no_token_direct_unauthenticated (env : Env) (st : Store) (u : Url)
    (hurl : u.getParam "access_token" = none)
    (hst : st.access_token = none) :
    bootstrap env st u = (st, u, [.navigate "/login"], .unauthenticated) ∧
    countApi (bootstrap env st u).2.2.1 = 0 ∧
    countRefresh (bootstrap env st u).2.2.1 = 0 := by
  have hb : bootstrap env st u = (st, u, [.navigate "/login"], .unauthenticated) := by
    simp only [bootstrap, extractUrlToken, hurl, hst]
  refine ⟨hb, ?_, ?_⟩ <;> rw [hb] <;> norm_num [countApi, countRefresh]

/-- C4 counterexample: with `?access_token=T&role=R` in the URL, when the
subsequent `/auth/me` validation fails (here a plain 500 with no refresh),
the bootstrap's failure handler removes the freshly stored token again, so
after Session Bootstrap runs the Token Store does not hold T. -/
theorem c4_counterexample_validation_failure_drops_token :
    (bootstrap (⟨fun _ _ => 500, fun _ => none⟩ : Env) Store.clearAll
        ⟨"/dashboard", [("access_token", "T"), ("role", "R")]⟩).1.access_token =
      none := by
  rfl

/-- Helper: the bootstrap never changes the URL after the extraction
phase; every later branch (no stored token, validation success, validation
failure) returns the URL the extraction produced. -/
theorem bootstrap_keeps_url (env : Env) (st : Store) (u : Url) :
    (bootstrap env st u).2.1 = (extractUrlToken st u).2 := by
  simp only [bootstrap]
  cases htok : (extractUrlToken st u).1.access_token with
  | none => simp [htok]
  | some tok =>
      cases hout : (runAxiosFresh env (extractUrlToken st u).1).2.2 <;>
        simp [htok, hout]

/-- C4 amended: with `?access_token=T&role=R` in the URL on first render,
after the bootstrap runs — in all cases, whatever the `/auth/me`
validation does — the visible URL keeps its pathname and no longer
contains either query parameter (history replacement, no navigation), and
re-running the extraction on the resulting state changes nothing (a reload
does not store T again); and provided the `/auth/me` validation of T
succeeds, the store holds access_token=T and role=R. -/
theorem c4_url_token_consumed_once (env : Env) (st : Store) (u : Url)
    (tokVal roleVal : String)
    (hT : u.getParam "access_token" = some tokVal)
    (hR : u.getParam "role" = some roleVal) :
    (bootstrap env st u).2.1.getParam "access_token" = none ∧
    (bootstrap env st u).2.1.getParam "role" = none ∧
    (bootstrap env st u).2.1.pathname = u.pathname ∧
    extractUrlToken (bootstrap env st u).1 (bootstrap env st u).2.1 =
      ((bootstrap env st u).1, (bootstrap env st u).2.1) ∧
    (200 ≤ env.api 0 (some (bearer tokVal)) ∧
       env.api 0 (some (bearer tokVal)) < 300 →
       (bootstrap env st u).1.access_token = some tokVal ∧
       (bootstrap env st u).1.role = some roleVal) := by
  have hurl : (bootstrap env st u).2.1 = ⟨u.pathname, []⟩ := by
    rw [bootstrap_keeps_url]
    simp [extractUrlToken, hT]
  refine ⟨?_, ?_, ?_, ?_, ?_⟩
  · rw [hurl]
    rfl
  · rw [hurl]
    rfl
  · rw [hurl]
  · rw [hurl]
    simp [extractUrlToken, Url.getParam]
  · intro hme
    have hb : bootstrap env st u =
        ({ st with access_token := some tokVal, role := some roleVal },
         ⟨u.pathname, []⟩,
         [.apiCall 0 (some (bearer tokVal))],
         .authenticated) := by
      simp only [bootstrap, extractUrlToken, hT, hR, storeSetFromUrl,
        runAxiosFresh, Option.map_some']
      rw [if_pos hme]
    rw [hb]
    exact ⟨rfl, rfl⟩

/-- C6 counterexample: a session holding a refresh token, whose access
token `/auth/me` rejects, whose refresh succeeds and whose retried
`/auth/me` is rejected again, ends with `refresh_token` still present:
the bootstrap failure handler removes only `access_token` and `role`, so
the store does not end with all three fields absent. -/
theorem c6_counterexample_refresh_token_survives :
    (bootstrap (⟨fun _ _ => 401, fun _ => some "n"⟩ : Env)
        ⟨some "t", some "r", some "doctor"⟩ ⟨"/dashboard", []⟩).1 =
      (⟨none, some "r", none⟩ : Store) := by
  rfl

/-- C6 amended: when `/auth/me` rejects the stored token even after the
API client's refresh-and-retry, the bootstrap ends unauthenticated with
`access_token` and `role` absent; `refresh_token` is absent only when the
refresh call itself failed (the interceptor ran `localStorage.clear()`),
and keeps its previous value when the refresh succeeded but the retried
request was rejected again. -/
theorem c6_rejected_after_retry_clears_access_and_role
    (env : Env) (st : Store) (u : Url) (tok : String)
    (hurl : u.getParam "access_token" = none)
    (htok : st.access_token = some tok)
    (hrej : ∀ a auth, env.api a auth = 401) :
    (bootstrap env st u).1.access_token = none ∧
    (bootstrap env st u).1.role = none ∧
    (bootstrap env st u).1.refresh_token =
      (match env.refresh st.refresh_token with
       | some _ => st.refresh_token
       | none => none) ∧
    (bootstrap env st u).2.2.2 = .unauthenticated := by
  cases hr : env.refresh st.refresh_token with
  | some newTok =>
      have hb : bootstrap env st u =
          ((⟨none, st.refresh_token, none⟩ : Store), u,
           [.apiCall 0 (some (bearer tok)), .refreshCall st.refresh_token,
            .apiCall 1 (some (bearer newTok)), .navigate "/login"],
           .unauthenticated) := by
        simp only [bootstrap, extractUrlToken, hurl, htok, runAxiosFresh,
          runAxiosRetried, Option.map_some', hrej, hr]
        norm_num
      rw [hb]
      simp
  | none =>
      have hb : bootstrap env st u =
          ((⟨none, none, none⟩ : Store), u,
           [.apiCall 0 (some (bearer tok)), .refreshCall st.refresh_token,
            .navigate "/login", .navigate "/login"],
           .unauthenticated) := by
        simp only [bootstrap, extractUrlToken, hurl, htok, runAxiosFresh,
          Option.map_some', hrej, hr]
        norm_num [Store.clearAll]
      rw [hb]
      simp

/-- C7: evaluation at the failing input. When the backend `POST
/auth/logout` fails with a 500, the `handleLogout` of `part_021` leaves
the stored access token and role exactly as they were and performs no
navigation, while the `handleLogout` variants of `part_009` clear the
access token (and, in the second variant, the role) regardless of the
backend outcome. -/
theorem c7_part021_retains_session_on_failed_backend_logout :
    handleLogoutPart021 (⟨fun _ _ => 500, fun _ => none⟩ : Env)
        ⟨some "t", none, some "doctor"⟩ =
      (⟨some "t", none, some "doctor"⟩, [.apiCall 0 (some (bearer "t"))]) ∧
    (handleLogoutPart009v1 (⟨fun _ _ => 500, fun _ => none⟩ : Env)
        ⟨some "t", none, some "doctor"⟩).1 =
      (⟨none, none, some "doctor"⟩ : Store) ∧
    (handleLogoutPart009v2 (⟨fun _ _ => 500, fun _ => none⟩ : Env)
        ⟨some "t", none, some "doctor"⟩).1 =
      (⟨none, none, none⟩ : Store) := by
  refine ⟨?_, rfl, rfl⟩
  rfl

/-- Helper: when a fresh request through the axios instance starts with a
stored access token and fulfils (2xx outcome), the store it leaves behind
still holds an access token (the original one, or the one written by a
successful refresh). -/
theorem runAxiosFresh_success_keeps_token (env : Env) (st : Store) (s : Nat)
    (htok : st.access_token.isSome)
    (hout : (runAxiosFresh env st).2.2 = .success s) :
    (runAxiosFresh env st).1.access_token.isSome := by
  by_cases h2 : 200 ≤ env.api 0 (st.access_token.map bearer) ∧
      env.api 0 (st.access_token.map bearer) < 300
  · simp only [runAxiosFresh, if_pos h2]
    simpa using htok
  · by_cases h401 : env.api 0 (st.access_token.map bearer) = 401
    · cases hr : env.refresh st.refresh_token with
      | some newTok =>
          have hshape := runAxiosRetried_shape env { st with access_token := some newTok } 1
          simp only [runAxiosFresh, if_neg h2, if_pos h401, hr, hshape.1]
          simp
      | none =>
          simp only [runAxiosFresh, if_neg h2, if_pos h401, hr] at hout
          simp at hout
    · simp only [runAxiosFresh, if_neg h2, if_neg h401] at hout
      simp at hout

/-- C8: a role is never honored without an access token. The bootstrap
renders protected content only when its final store still holds an access
token; with no access token in store or URL it lands in the
unauthenticated state regardless of any role value still stored; the
auth-slice `logout` removes the access token while leaving the stored
role untouched, and a bootstrap run after it still lands in the
unauthenticated state. -/
theorem c8_role_never_honored_without_token (env : Env) (st : Store) (u : Url) :
    ((bootstrap env st u).2.2.2 = .authenticated →
       (bootstrap env st u).1.access_token.isSome) ∧
    (u.getParam "access_token" = none → st.access_token = none →
       (bootstrap env st u).2.2.2 = .unauthenticated) ∧
    (authSliceLogout st).access_token = none ∧
    (authSliceLogout st).role = st.role ∧
    (u.getParam "access_token" = none →
       (bootstrap env (authSliceLogout st) u).2.2.2 = .unauthenticated) := by
  refine ⟨?_, ?_, rfl, rfl, ?_⟩
  · intro hauth
    simp only [bootstrap] at hauth ⊢
    cases htok : (extractUrlToken st u).1.access_token with
    | none => simp [htok] at hauth
    | some tok =>
        simp only [htok] at hauth ⊢
        cases hout : (runAxiosFresh env (extractUrlToken st u).1).2.2 with
        | success s =>
            simp only [hout] at hauth ⊢
            exact runAxiosFresh_success_keeps_token env _ s (by simp [htok]) hout
        | httpError s => simp [hout] at hauth
        | refreshError => simp [hout] at hauth
  · intro hu hst
    simp [bootstrap, extractUrlToken, hu, hst]
  · intro hu
    simp [bootstrap, extractUrlToken, hu, authSliceLogout]

/-- Witness for C1: a backend answering 401 to the first attempt and 200
to the retry, with a refresh yielding token "n". -/
theorem c1_single_refresh_witness :
    countRefresh
        (runAxiosFresh (⟨fun a _ => if a = 0 then 401 else 200, fun _ => some "n"⟩ : Env)
          ⟨some "t", some "r", none⟩).2.1 = 1 ∧
    (runAxiosFresh (⟨fun a _ => if a = 0 then 401 else 200, fun _ => some "n"⟩ : Env)
          ⟨some "t", some "r", none⟩).1.access_token = some "n" :=
  ⟨(c1_first_401_single_refresh_and_retry
      (⟨fun a _ => if a = 0 then 401 else 200, fun _ => some "n"⟩ : Env)
      ⟨some "t", some "r", none⟩ "n" rfl rfl).2.1,
   (c1_first_401_single_refresh_and_retry
      (⟨fun a _ => if a = 0 then 401 else 200, fun _ => some "n"⟩ : Env)
      ⟨some "t", some "r", none⟩ "n" rfl rfl).1⟩

/-- Witness for C2: a backend that never answers 401 triggers no refresh;
a backend that keeps answering 401 after a successful refresh gets exactly
one refresh and the 401 propagated. -/
theorem c2_gating_witness :
    countRefresh
        (runAxiosFresh (⟨fun _ _ => 200, fun _ => none⟩ : Env)
          ⟨some "t", none, none⟩).2.1 = 0 ∧
    (runAxiosFresh (⟨fun _ _ => 401, fun _ => some "n"⟩ : Env)
        ⟨some "t", some "r", none⟩).2.2 = .httpError 401 :=
  ⟨(c2_refresh_gating (⟨fun _ _ => 200, fun _ => none⟩ : Env)
      ⟨some "t", none, none⟩).1 (by decide),
   ((c2_refresh_gating (⟨fun _ _ => 401, fun _ => some "n"⟩ : Env)
      ⟨some "t", some "r", none⟩).2 "n" rfl rfl rfl).2⟩

/-- Witness for C3: a backend rejecting both the request and the refresh
leaves a cleared store and the refresh error. -/
theorem c3_hard_logout_witness :
    (runAxiosFresh (⟨fun _ _ => 401, fun _ => none⟩ : Env)
        ⟨some "t", some "r", some "doctor"⟩).1 = Store.clearAll ∧
    (runAxiosFresh (⟨fun _ _ => 401, fun _ => none⟩ : Env)
        ⟨some "t", some "r", some "doctor"⟩).2.2 = .refreshError := by
  have h := c3_refresh_failure_hard_logout (⟨fun _ _ => 401, fun _ => none⟩ : Env)
    ⟨some "t", some "r", some "doctor"⟩ rfl rfl
  rw [h]
  exact ⟨rfl, rfl⟩

/-- Witness for C10 at a backend whose refresh fails. -/
theorem c10_single_attempt_witness :
    countRefresh
        (runAxiosFresh (⟨fun _ _ => 401, fun _ => none⟩ : Env)
          ⟨some "t", some "r", none⟩).2.1 ≤ 1 ∧
    (runAxiosFresh (⟨fun _ _ => 401, fun _ => none⟩ : Env)
        ⟨some "t", some "r", none⟩).2.2 = .refreshError :=
  ⟨(c10_refresh_not_intercepted_single_attempt (⟨fun _ _ => 401, fun _ => none⟩ : Env)
      ⟨some "t", some "r", none⟩).1,
   ((c10_refresh_not_intercepted_single_attempt (⟨fun _ _ => 401, fun _ => none⟩ : Env)
      ⟨some "t", some "r", none⟩).2.2 rfl rfl).2.1⟩

/-- Witness for C4 at a URL carrying both parameters: the unconditional
URL conclusions at a backend that rejects the token, and the store
conclusions at a backend that accepts it. -/
theorem c4_consumed_witness :
    (bootstrap (⟨fun _ _ => 500, fun _ => none⟩ : Env) Store.clearAll
        ⟨"/dashboard", [("access_token", "T"), ("role", "R")]⟩).2.1.getParam
        "access_token" = none ∧
    (bootstrap (⟨fun _ _ => 500, fun _ => none⟩ : Env) Store.clearAll
        ⟨"/dashboard", [("access_token", "T"), ("role", "R")]⟩).2.1.pathname =
      "/dashboard" ∧
    (bootstrap (⟨fun _ _ => 200, fun _ => none⟩ : Env) Store.clearAll
        ⟨"/dashboard", [("access_token", "T"), ("role", "R")]⟩).1.access_token =
      some "T" ∧
    (bootstrap (⟨fun _ _ => 200, fun _ => none⟩ : Env) Store.clearAll
        ⟨"/dashboard", [("access_token", "T"), ("role", "R")]⟩).1.role =
      some "R" := by
  have hfail := c4_url_token_consumed_once (⟨fun _ _ => 500, fun _ => none⟩ : Env)
    Store.clearAll ⟨"/dashboard", [("access_token", "T"), ("role", "R")]⟩
    "T" "R" rfl rfl
  have hok := c4_url_token_consumed_once (⟨fun _ _ => 200, fun _ => none⟩ : Env)
    Store.clearAll ⟨"/dashboard", [("access_token", "T"), ("role", "R")]⟩
    "T" "R" rfl rfl
  exact ⟨hfail.1, hfail.2.2.1, (hok.2.2.2.2 (by decide)).1,
    (hok.2.2.2.2 (by decide)).2⟩

/-- Witness for C5 at an empty store and a bare URL. -/
theorem c5_direct_witness :
    bootstrap (⟨fun _ _ => 200, fun _ => none⟩ : Env) ⟨none, none, some "doctor"⟩
        ⟨"/dashboard", []⟩ =
      (⟨none, none, some "doctor"⟩, ⟨"/dashboard", []⟩,
       [.navigate "/login"], .unauthenticated) :=
  (c5_no_token_direct_unauthenticated (⟨fun _ _ => 200, fun _ => none⟩ : Env)
    ⟨none, none, some "doctor"⟩ ⟨"/dashboard", []⟩ rfl rfl).1

/-- Witness for the amended C6 at a backend that always answers 401 and a
refresh that succeeds: access token and role end absent, the refresh token
keeps its value. -/
theorem c6_clears_witness :
    (bootstrap (⟨fun _ _ => 401, fun _ => some "n"⟩ : Env)
        ⟨some "t", some "r", some "doctor"⟩ ⟨"/dashboard", []⟩).1.access_token =
      none ∧
    (bootstrap (⟨fun _ _ => 401, fun _ => some "n"⟩ : Env)
        ⟨some "t", some "r", some "doctor"⟩ ⟨"/dashboard", []⟩).1.role = none ∧
    (bootstrap (⟨fun _ _ => 401, fun _ => some "n"⟩ : Env)
        ⟨some "t", some "r", some "doctor"⟩ ⟨"/dashboard", []⟩).1.refresh_token =
      some "r" ∧
    (bootstrap (⟨fun _ _ => 401, fun _ => some "n"⟩ : Env)
        ⟨some "t", some "r", some "doctor"⟩ ⟨"/dashboard", []⟩).2.2.2 =
      .unauthenticated := by
  have h := c6_rejected_after_retry_clears_access_and_role
    (⟨fun _ _ => 401, fun _ => some "n"⟩ : Env) ⟨some "t", some "r", some "doctor"⟩
    ⟨"/dashboard", []⟩ "t" rfl rfl (fun _ _ => rfl)
  exact ⟨h.1, h.2.1, h.2.2.1, h.2.2.2⟩

/-- Witness for C8: a valid session bootstrap ends with a token present;
a token-less store (with a stale role), before or after the auth-slice
logout, ends unauthenticated. -/
theorem c8_role_witness :
    (bootstrap (⟨fun _ _ => 200, fun _ => none⟩ : Env) ⟨some "t", none, some "doctor"⟩
        ⟨"/dashboard", []⟩).1.access_token.isSome = true ∧
    (bootstrap (⟨fun _ _ => 200, fun _ => none⟩ : Env) ⟨none, none, some "doctor"⟩
        ⟨"/dashboard", []⟩).2.2.2 = .unauthenticated ∧
    (bootstrap (⟨fun _ _ => 200, fun _ => none⟩ : Env)
        (authSliceLogout ⟨some "t", none, some "doctor"⟩)
        ⟨"/dashboard", []⟩).2.2.2 = .unauthenticated :=
  ⟨(c8_role_never_honored_without_token (⟨fun _ _ => 200, fun _ => none⟩ : Env)
      ⟨some "t", none, some "doctor"⟩ ⟨"/dashboard", []⟩).1 rfl,
   (c8_role_never_honored_without_token (⟨fun _ _ => 200, fun _ => none⟩ : Env)
      ⟨none, none, some "doctor"⟩ ⟨"/dashboard", []⟩).2.1 rfl rfl,
   (c8_role_never_honored_without_token (⟨fun _ _ => 200, fun _ => none⟩ : Env)
      ⟨some "t", none, some "doctor"⟩ ⟨"/dashboard", []⟩).2.2.2.2 rfl⟩
